import Mathlib

/-!
Shallow embedding of the Telluride ski-rental MCP server
(src/telluride-ski-rental-mcp/src/index.ts).

The server holds a fixed in-memory catalog of `SkiRental` records and a
dispatcher for four tools (list_ski_rentals, get_rental_details,
search_rentals, get_rental_recommendations).  Handlers are pure reads over
the catalog; the dispatcher wraps every handler in a try/catch and returns
a content payload together with an `isError` flag.

Modelling decisions:
* JavaScript `String.prototype.toLowerCase` is modelled by `lowerStr`
  (ASCII case folding, which coincides with JS on the catalog's content
  and on ASCII queries).
* JavaScript `String.prototype.includes` is modelled by `strContains`.
* `JSON.stringify` at the response boundary is injective on the values the
  server serializes, so content is modelled structurally by `Payload`
  instead of by a rendered JSON string; plain text messages (errors,
  unknown-tool notices) keep their exact source strings.
* A JS exception escaping a handler (e.g. reading a property of
  `undefined` when a required argument is missing) is modelled by
  `Except.error`; the try/catch of the dispatcher is `callToolOn`.
-/

/-- One catalog record, translated field-for-field from the
`SkiRental` interface of the source. -/
structure SkiRental where
  id : String
  name : String
  location : String
  address : String
  phone : String
  website : Option String := none
  description : String
  services : List String
  rentalTypes : List String
  priceRange : String
  hours : Option String := none
  deriving DecidableEq, Repr

/-- The fixed catalog `skiRentals` from the source, in load order. -/
def skiRentals : List SkiRental := [
  { id := "telluride-sports",
    name := "Telluride Sports",
    location := "Telluride",
    address := "150 W Colorado Ave, Telluride, CO 81435",
    phone := "(970) 728-4477",
    website := some "https://www.tellurideports.com",
    description := "Full-service ski and snowboard shop in downtown Telluride offering premium rentals, demos, and expert fitting services.",
    services := ["Ski Rentals", "Snowboard Rentals", "Demo Equipment", "Tune-ups", "Repairs", "Boot Fitting"],
    rentalTypes := ["Adult Skis", "Junior Skis", "Performance Skis", "Snowboards", "Boots", "Poles", "Helmets"],
    priceRange := "$40-$80/day",
    hours := some "8:00 AM - 6:00 PM daily" },
  { id := "bootdoctors",
    name := "Bootdoctors",
    location := "Mountain Village",
    address := "568 Mountain Village Blvd, Mountain Village, CO 81435",
    phone := "(970) 728-4882",
    website := some "https://www.bootdoctors.com",
    description := "Renowned for custom boot fitting and high-performance ski rentals. Located at the base of the gondola in Mountain Village.",
    services := ["Premium Rentals", "Custom Boot Fitting", "Expert Advice", "Demo Skis", "Repairs"],
    rentalTypes := ["High-Performance Skis", "All-Mountain Skis", "Powder Skis", "Touring Equipment", "Custom Boots"],
    priceRange := "$50-$100/day",
    hours := some "8:00 AM - 5:00 PM daily" },
  { id := "jagged-edge",
    name := "Jagged Edge Mountain Gear",
    location := "Telluride",
    address := "223 E Colorado Ave, Telluride, CO 81435",
    phone := "(970) 728-9264",
    website := some "https://www.jaggededgemountaingear.com",
    description := "Local favorite offering quality ski rentals, backcountry gear, and personalized service in downtown Telluride.",
    services := ["Ski Rentals", "Backcountry Gear", "Avalanche Safety Equipment", "Repairs", "Expert Consultation"],
    rentalTypes := ["All-Mountain Skis", "Backcountry Skis", "Touring Gear", "Splitboards", "Safety Equipment"],
    priceRange := "$35-$75/day",
    hours := some "8:00 AM - 6:00 PM daily" },
  { id := "paragon-ski-snowboard",
    name := "Paragon Ski & Snowboard",
    location := "Mountain Village",
    address := "Mountain Village Plaza, Mountain Village, CO 81435",
    phone := "(970) 369-0435",
    website := some "https://www.paragontelluride.com",
    description := "Conveniently located in Mountain Village offering a wide selection of rental equipment for all skill levels.",
    services := ["Ski Rentals", "Snowboard Rentals", "Group Rentals", "Online Reservations", "Delivery Service"],
    rentalTypes := ["Beginner Packages", "Intermediate Skis", "Advanced Skis", "Snowboards", "Kids Equipment"],
    priceRange := "$35-$70/day",
    hours := some "7:30 AM - 5:30 PM daily" },
  { id := "telluride-ski-rental-delivery",
    name := "Telluride Ski Rental Delivery",
    location := "Telluride (Delivery Service)",
    address := "Delivery to your location in Telluride area",
    phone := "(970) 708-8754",
    website := some "https://www.tellurideskirentaldelivery.com",
    description := "Premium ski rental delivery service bringing equipment directly to your accommodation with professional fitting.",
    services := ["Delivery Service", "In-Room Fitting", "Premium Equipment", "Flexible Pickup", "24/7 Support"],
    rentalTypes := ["Premium Skis", "High-End Snowboards", "Kids Equipment", "Full Packages"],
    priceRange := "$45-$90/day + delivery fee",
    hours := some "By appointment - 7 days a week" },
  { id := "mountain-sports-telluride",
    name := "Mountain Sports Telluride",
    location := "Telluride",
    address := "100 W San Juan Ave, Telluride, CO 81435",
    phone := "(970) 728-4239",
    description := "Long-established Telluride shop offering affordable ski rentals and expert local knowledge.",
    services := ["Ski Rentals", "Snowboard Rentals", "Repairs", "Waxing", "Tune-ups"],
    rentalTypes := ["Standard Skis", "Performance Skis", "Snowboards", "Kids Equipment", "Boots", "Helmets"],
    priceRange := "$30-$65/day",
    hours := some "8:00 AM - 6:00 PM daily" }
]

/-- ASCII case folding on a string; models JS `toLowerCase` on the
server's data and arguments. -/
def lowerStr (s : String) : String := ⟨s.data.map Char.toLower⟩

/-- Does the character list contain `pat` as a contiguous sublist?
Helper for `strContains`. -/
def substrAux (pat : List Char) : List Char → Bool
  | [] => pat.isEmpty
  | c :: cs => pat.isPrefixOf (c :: cs) || substrAux pat cs

/-- Substring containment test; models JS `s.includes(pat)`. -/
def strContains (s pat : String) : Bool := substrAux pat.data s.data

/-- JS string interpolation of a possibly-undefined value. -/
def jsString : Option String → String
  | some s => s
  | none => "undefined"

/-- The structured content of one response, standing for the JSON text the
server would emit (JSON.stringify is injective on these shapes). -/
inductive Payload where
  | records : List SkiRental → Payload
  | record : SkiRental → Payload
  | recommendation : String → List SkiRental → Payload
  | message : String → Payload
  deriving DecidableEq, Repr

/-- The response envelope: one content payload plus the error flag
(absent in JS means `false`). -/
structure CallResult where
  payload : Payload
  isError : Bool
  deriving DecidableEq, Repr

/-- The argument bag of a tool call; each field is `none` when the caller
omitted it (JS `undefined`). -/
structure ToolArgs where
  rental_id : Option String := none
  query : Option String := none
  need : Option String := none
  deriving DecidableEq, Repr

/-- The search predicate of the search_rentals handler, applied to the
already-lowercased query. -/
def rentalMatches (query : String) (r : SkiRental) : Bool :=
  strContains (lowerStr r.name) query ||
  strContains (lowerStr r.location) query ||
  strContains (lowerStr r.description) query ||
  r.services.any (fun s => strContains (lowerStr s) query) ||
  r.rentalTypes.any (fun t => strContains (lowerStr t) query)

/-- The get_rental_details handler over a catalog `cat`. -/
def getRentalDetailsOn (cat : List SkiRental) (rentalId : Option String) : CallResult :=
  match cat.find? (fun r => some r.id == rentalId) with
  | some r => { payload := .record r, isError := false }
  | none =>
    { payload := .message ("Ski rental shop with ID \"" ++ jsString rentalId ++ "\" not found."),
      isError := true }

/-- The search_rentals handler over a catalog `cat`. -/
def searchRentalsOn (cat : List SkiRental) (q : String) : CallResult :=
  { payload := .records (cat.filter (rentalMatches (lowerStr q))), isError := false }

/-- The switch of the get_rental_recommendations handler: from the
already-lowercased need, the explanation and the selected records. -/
def recommendForOn (cat : List SkiRental) (need : String) : String × List SkiRental :=
  if need = "beginner" then
    ("These shops offer beginner-friendly equipment and packages with great service for first-timers.",
     cat.filter (fun r =>
       r.rentalTypes.any (fun t => strContains (lowerStr t) "beginner") ||
       r.id == "paragon-ski-snowboard" || r.id == "mountain-sports-telluride"))
  else if need = "expert" ∨ need = "advanced" then
    ("These shops specialize in high-performance equipment and expert boot fitting for advanced skiers.",
     cat.filter (fun r =>
       r.rentalTypes.any (fun t => strContains (lowerStr t) "performance" || strContains (lowerStr t) "premium") ||
       r.id == "bootdoctors" || r.id == "telluride-sports"))
  else if need = "backcountry" ∨ need = "touring" then
    ("These shops offer backcountry and touring equipment with avalanche safety gear.",
     cat.filter (fun r =>
       r.services.any (fun s => strContains (lowerStr s) "backcountry") ||
       r.rentalTypes.any (fun t => strContains (lowerStr t) "backcountry" || strContains (lowerStr t) "touring")))
  else if need = "delivery" then
    ("These shops offer delivery service to your accommodation.",
     cat.filter (fun r =>
       r.services.any (fun s => strContains (lowerStr s) "delivery") || r.id == "telluride-ski-rental-delivery"))
  else if need = "budget" ∨ need = "affordable" then
    ("These shops offer the most affordable rental options in the Telluride area.",
     cat.filter (fun r =>
       strContains r.priceRange "$30" || strContains r.priceRange "$35" || r.id == "mountain-sports-telluride"))
  else if need = "premium" ∨ need = "luxury" then
    ("These shops offer premium equipment and high-end services for the best skiing experience.",
     cat.filter (fun r =>
       r.id == "bootdoctors" || r.id == "telluride-ski-rental-delivery" || r.id == "telluride-sports"))
  else if need = "family" ∨ need = "kids" then
    ("These shops have great options for families and children\x27s equipment.",
     cat.filter (fun r =>
       r.rentalTypes.any (fun t => strContains (lowerStr t) "kids" || strContains (lowerStr t) "junior")))
  else
    ("Here are all available ski rental options in the Telluride area.", cat)

/-- The get_rental_recommendations handler over a catalog `cat`. -/
def getRentalRecommendationsOn (cat : List SkiRental) (n : String) : CallResult :=
  let p := recommendForOn cat (lowerStr n)
  { payload := .recommendation p.1 p.2, isError := false }

/-- The body of the CallToolRequestSchema handler over a catalog `cat`:
the if-chain on the tool name, with JS exceptions (property reads on
`undefined`) surfaced as `Except.error`. -/
def callToolBodyOn (cat : List SkiRental) (name : String) (args : Option ToolArgs) :
    Except String CallResult :=
  if name = "list_ski_rentals" then
    .ok { payload := .records cat, isError := false }
  else if name = "get_rental_details" then
    match args with
    | none => .error "Cannot read properties of undefined (reading \x27rental_id\x27)"
    | some a => .ok (getRentalDetailsOn cat a.rental_id)
  else if name = "search_rentals" then
    match args with
    | none => .error "Cannot read properties of undefined (reading \x27query\x27)"
    | some a =>
      match a.query with
      | none => .error "Cannot read properties of undefined (reading \x27toLowerCase\x27)"
      | some q => .ok (searchRentalsOn cat q)
  else if name = "get_rental_recommendations" then
    match args with
    | none => .error "Cannot read properties of undefined (reading \x27need\x27)"
    | some a =>
      match a.need with
      | none => .error "Cannot read properties of undefined (reading \x27toLowerCase\x27)"
      | some n => .ok (getRentalRecommendationsOn cat n)
  else
    .ok { payload := .message ("Unknown tool: " ++ name), isError := true }

/-- The complete dispatcher over a catalog `cat`: the try/catch around the
handler body, converting any fault into error-flagged content. -/
def callToolOn (cat : List SkiRental) (name : String) (args : Option ToolArgs) : CallResult :=
  match callToolBodyOn cat name args with
  | .ok r => r
  | .error e => { payload := .message ("Error: " ++ e), isError := true }

/-- The handler body as the server runs it, over the global catalog. -/
def callToolBody (name : String) (args : Option ToolArgs) : Except String CallResult :=
  callToolBodyOn skiRentals name args

/-- The dispatcher as the server runs it, over the global catalog. -/
def callTool (name : String) (args : Option ToolArgs) : CallResult :=
  callToolOn skiRentals name args

/-- One call applied to the store: the handlers only read the store
(find/filter/stringify perform no writes in the source), so the store
after the call is the store before it. -/
def applyCall (cat : List SkiRental) (c : String × Option ToolArgs) :
    List SkiRental × CallResult :=
  (cat, callToolOn cat c.1 c.2)

/-- A sequence of calls processed one at a time, threading the store. -/
def runCalls (cat : List SkiRental) : List (String × Option ToolArgs) →
    List SkiRental × List CallResult
  | [] => (cat, [])
  | c :: cs =>
    let s := applyCall cat c
    let rest := runCalls s.1 cs
    (rest.1, s.2 :: rest.2)

/-- The record list inside a records payload. -/
def resultRecords : CallResult → List SkiRental
  | { payload := .records l, isError := _ } => l
  | _ => []

/-- The record list inside a recommendation payload. -/
def recommendedRecords : CallResult → List SkiRental
  | { payload := .recommendation _ l, isError := _ } => l
  | _ => []

/-- The explanation inside a recommendation payload. -/
def recommendedText : CallResult → Option String
  | { payload := .recommendation e _, isError := _ } => some e
  | _ => none

/-- The search predicate as the spec words it: the lowercased query is a
substring of `name`, `location`, or `description`, or of some element of
`serviceTags` (the field the source calls `services`) or `equipmentTags`
(the field the source calls `rentalTypes`), all compared
case-insensitively. -/
def specSearchMatch (q : String) (r : SkiRental) : Bool :=
  let lq := lowerStr q
  strContains (lowerStr r.name) lq ||
  strContains (lowerStr r.location) lq ||
  strContains (lowerStr r.description) lq ||
  r.services.any (fun s => strContains (lowerStr s) lq) ||
  r.rentalTypes.any (fun t => strContains (lowerStr t) lq)

/-- The need keywords the recommendation switch recognizes. -/
def recognizedNeeds : List String :=
  ["beginner", "expert", "advanced", "backcountry", "touring", "delivery",
   "budget", "affordable", "premium", "luxury", "family", "kids"]

/-! ### Helper lemmas -/

theorem charToLower_idem (c : Char) : c.toLower.toLower = c.toLower := by
  show Char.toLower (Char.toLower c) = Char.toLower c
  unfold Char.toLower
  by_cases h : c.toNat ≥ 65 ∧ c.toNat ≤ 90
  · rw [if_pos h]
    have hv : Nat.isValidChar (c.toNat + 32) := Or.inl (by omega)
    have ht : (Char.ofNat (c.toNat + 32)).toNat = c.toNat + 32 := by
      unfold Char.ofNat
      rw [dif_pos hv]
      rfl
    rw [ht, if_neg (by omega)]
  · rw [if_neg h, if_neg h]

theorem lowerStr_idem (s : String) : lowerStr (lowerStr s) = lowerStr s := by
  unfold lowerStr
  show String.mk ((s.data.map Char.toLower).map Char.toLower) = String.mk (s.data.map Char.toLower)
  rw [List.map_map]
  have : Char.toLower ∘ Char.toLower = Char.toLower := funext charToLower_idem
  rw [this]

theorem callTool_search (a : ToolArgs) (q : String) (hq : a.query = some q) :
    callTool "search_rentals" (some a) = searchRentalsOn skiRentals q := by
  obtain ⟨rid, aq, an⟩ := a
  cases hq
  rfl

theorem callTool_details (a : ToolArgs) :
    callTool "get_rental_details" (some a) = getRentalDetailsOn skiRentals a.rental_id := rfl

theorem callTool_recommend (a : ToolArgs) (n : String) (hn : a.need = some n) :
    callTool "get_rental_recommendations" (some a) = getRentalRecommendationsOn skiRentals n := by
  obtain ⟨rid, aq, an⟩ := a
  cases hn
  rfl

/-! ### Claim theorems -/

/-- C1: for every query string q, search_rentals returns exactly the
records for which the lowercased q is a substring of the record's name,
location, or description, or of some element of its serviceTags
(services) or equipmentTags (rentalTypes), case-insensitively; the result
is in store order, and when no record matches it is the empty sequence in
a non-error response. -/
theorem search_spec_correct (q : String) :
    callTool "search_rentals" (some { query := some q }) =
      { payload := .records (skiRentals.filter (specSearchMatch q)), isError := false } ∧
    (skiRentals.filter (specSearchMatch q)).Sublist skiRentals ∧
    ((∀ r ∈ skiRentals, specSearchMatch q r = false) →
      skiRentals.filter (specSearchMatch q) = []) := by
  refine ⟨?_, List.filter_sublist _, ?_⟩
  · rw [callTool_search _ q rfl]
    rfl
  · intro h
    exact List.filter_eq_nil_iff.mpr (fun r hr => by simp [h r hr])

/-- Witness for C1 at the concrete query "zzzz", which matches nothing. -/
theorem search_spec_correct_witness :
    callTool "search_rentals" (some { query := some "zzzz" }) =
      { payload := .records (skiRentals.filter (specSearchMatch "zzzz")), isError := false } ∧
    skiRentals.filter (specSearchMatch "zzzz") = [] :=
  ⟨(search_spec_correct "zzzz").1, (search_spec_correct "zzzz").2.2 (by decide)⟩

/-- C2: for every id of some catalog record, get_rental_details returns a
non-error response carrying a record whose id equals the requested id;
moreover the call is non-error exactly when some record's id equals the
requested id under exact, case-sensitive string equality. -/
theorem get_details_valid_id :
    (∀ i, i ∈ skiRentals.map SkiRental.id →
      ∃ r, r ∈ skiRentals ∧ r.id = i ∧
        callTool "get_rental_details" (some { rental_id := some i }) =
          { payload := .record r, isError := false }) ∧
    (∀ i, (callTool "get_rental_details" (some { rental_id := some i })).isError = false ↔
      ∃ r, r ∈ skiRentals ∧ r.id = i) := by
  have key : ∀ i : String,
      (∃ r, skiRentals.find? (fun r => some r.id == some i) = some r ∧
        r ∈ skiRentals ∧ r.id = i) ∨
      (skiRentals.find? (fun r => some r.id == some i) = none ∧
        ∀ r ∈ skiRentals, r.id ≠ i) := by
    intro i
    cases hf : skiRentals.find? (fun r => some r.id == some i) with
    | none =>
      refine Or.inr ⟨rfl, fun r hr => ?_⟩
      have := List.find?_eq_none.mp hf r hr
      simpa using this
    | some r =>
      refine Or.inl ⟨r, rfl, List.mem_of_find?_eq_some hf, ?_⟩
      have := List.find?_some hf
      simpa using this
  constructor
  · intro i hi
    rcases key i with ⟨r, hf, hm, hid⟩ | ⟨hf, hall⟩
    · refine ⟨r, hm, hid, ?_⟩
      rw [callTool_details]
      show getRentalDetailsOn skiRentals (some i) = _
      unfold getRentalDetailsOn
      rw [hf]
    · exfalso
      rcases List.mem_map.mp hi with ⟨r, hr, hrid⟩
      exact hall r hr hrid
  · intro i
    constructor
    · intro h
      rcases key i with ⟨r, hf, hm, hid⟩ | ⟨hf, hall⟩
      · exact ⟨r, hm, hid⟩
      · exfalso
        rw [callTool_details] at h
        unfold getRentalDetailsOn at h
        rw [hf] at h
        simp at h
    · rintro ⟨r, hm, hid⟩
      rcases key i with ⟨r2, hf, hm2, hid2⟩ | ⟨hf, hall⟩
      · rw [callTool_details]
        show (getRentalDetailsOn skiRentals (some i)).isError = false
        unfold getRentalDetailsOn
        rw [hf]
      · exact absurd hid (hall r hm)

/-- Witness for C2 at the concrete valid id "bootdoctors". -/
theorem get_details_valid_id_witness :
    ∃ r, r ∈ skiRentals ∧ r.id = "bootdoctors" ∧
      callTool "get_rental_details" (some { rental_id := some "bootdoctors" }) =
        { payload := .record r, isError := false } :=
  get_details_valid_id.1 "bootdoctors" (by decide)

/-- C3 counterexample: on the unknown id "does-not-exist" the response
text is not the spec's `Record with id "<id>" not found.`. -/
theorem details_not_found_text_mismatch :
    callTool "get_rental_details" (some { rental_id := some "does-not-exist" }) ≠
      { payload := .message "Record with id \"does-not-exist\" not found.",
        isError := true } := by decide

/-- C3 as amended: for every id matching no record, get_rental_details
returns (never throws) an error-flagged response whose content is exactly
the text `Ski rental shop with ID "<id>" not found.` with the requested
id echoed back. -/
theorem details_not_found_message (i : String) (h : ∀ r ∈ skiRentals, r.id ≠ i) :
    callTool "get_rental_details" (some { rental_id := some i }) =
      { payload := .message ("Ski rental shop with ID \"" ++ i ++ "\" not found."),
        isError := true } := by
  rw [callTool_details]
  show getRentalDetailsOn skiRentals (some i) = _
  unfold getRentalDetailsOn
  have hf : skiRentals.find? (fun r => some r.id == some i) = none :=
    List.find?_eq_none.mpr (fun r hr => by simpa using h r hr)
  rw [hf]
  rfl

/-- Witness for the amended C3 at the concrete unknown id
"does-not-exist". -/
theorem details_not_found_message_witness :
    callTool "get_rental_details" (some { rental_id := some "does-not-exist" }) =
      { payload := .message ("Ski rental shop with ID \"" ++ "does-not-exist" ++ "\" not found."),
        isError := true } :=
  details_not_found_message "does-not-exist" (by decide)

/-- C4: a call naming an unknown operation gets an error-flagged response
naming it; a call omitting the required argument of its operation gets an
error-flagged response; and every fault the handler body raises is caught
at the call boundary and converted to error-flagged content instead of
escaping. -/
theorem dispatcher_error_containment :
    (∀ name args,
      name ∉ (["list_ski_rentals", "get_rental_details", "search_rentals",
        "get_rental_recommendations"] : List String) →
      callTool name args = { payload := .message ("Unknown tool: " ++ name), isError := true }) ∧
    (∀ a : ToolArgs, a.rental_id = none →
      (callTool "get_rental_details" (some a)).isError = true) ∧
    (∀ a : ToolArgs, a.query = none →
      (callTool "search_rentals" (some a)).isError = true) ∧
    (∀ a : ToolArgs, a.need = none →
      (callTool "get_rental_recommendations" (some a)).isError = true) ∧
    (∀ name, name ∈ (["get_rental_details", "search_rentals",
        "get_rental_recommendations"] : List String) →
      (callTool name none).isError = true) ∧
    (∀ name args e, callToolBody name args = Except.error e →
      callTool name args = { payload := .message ("Error: " ++ e), isError := true }) := by
  refine ⟨?_, ?_, ?_, ?_, ?_, ?_⟩
  · intro name args h
    simp only [List.mem_cons, List.not_mem_nil, or_false, not_or] at h
    obtain ⟨h1, h2, h3, h4⟩ := h
    show callToolOn skiRentals name args = _
    unfold callToolOn callToolBodyOn
    rw [if_neg h1, if_neg h2, if_neg h3, if_neg h4]
  · intro a h
    obtain ⟨rid, aq, an⟩ := a
    cases h
    rfl
  · intro a h
    obtain ⟨rid, aq, an⟩ := a
    cases h
    rfl
  · intro a h
    obtain ⟨rid, aq, an⟩ := a
    cases h
    rfl
  · intro name h
    simp only [List.mem_cons, List.not_mem_nil, or_false] at h
    rcases h with rfl | rfl | rfl <;> rfl
  · intro name args e h
    have h2 : callToolBodyOn skiRentals name args = Except.error e := h
    show callToolOn skiRentals name args = _
    unfold callToolOn
    rw [h2]

/-- Witness for C4: an unknown tool name, each operation invoked with its
required argument omitted, and a concrete caught fault. -/
theorem dispatcher_error_containment_witness :
    callTool "bogus_tool" none =
      { payload := .message ("Unknown tool: " ++ "bogus_tool"), isError := true } ∧
    (callTool "get_rental_details" (some {})).isError = true ∧
    (callTool "search_rentals" (some {})).isError = true ∧
    (callTool "get_rental_recommendations" (some {})).isError = true ∧
    (callTool "search_rentals" none).isError = true ∧
    callTool "search_rentals" none =
      { payload := .message ("Error: " ++ "Cannot read properties of undefined (reading \x27query\x27)"),
        isError := true } :=
  ⟨dispatcher_error_containment.1 "bogus_tool" none (by decide),
   dispatcher_error_containment.2.1 {} rfl,
   dispatcher_error_containment.2.2.1 {} rfl,
   dispatcher_error_containment.2.2.2.1 {} rfl,
   dispatcher_error_containment.2.2.2.2.1 "search_rentals" (by decide),
   dispatcher_error_containment.2.2.2.2.2 "search_rentals" none _ rfl⟩

/-- C5: recommending for "premium" (and "luxury") yields exactly the 3
records with the designated premium ids, with the fixed premium
explanation, in a non-error response. -/
theorem recommend_premium_exact :
    (recommendedRecords (callTool "get_rental_recommendations" (some { need := some "premium" }))).map SkiRental.id =
      ["telluride-sports", "bootdoctors", "telluride-ski-rental-delivery"] ∧
    (recommendedRecords (callTool "get_rental_recommendations" (some { need := some "premium" }))).length = 3 ∧
    recommendedText (callTool "get_rental_recommendations" (some { need := some "premium" })) =
      some "These shops offer premium equipment and high-end services for the best skiing experience." ∧
    (callTool "get_rental_recommendations" (some { need := some "premium" })).isError = false ∧
    callTool "get_rental_recommendations" (some { need := some "luxury" }) =
      callTool "get_rental_recommendations" (some { need := some "premium" }) := by decide

/-- Shared helper: every need whose lowercase form is outside the 12
switch keywords reaches the default branch of the switch. -/
theorem recommendUnrecognized (need : String) (h : lowerStr need ∉ recognizedNeeds) :
    callTool "get_rental_recommendations" (some { need := some need }) =
      { payload := .recommendation "Here are all available ski rental options in the Telluride area." skiRentals,
        isError := false } := by
  have hk : ∀ k ∈ recognizedNeeds, lowerStr need ≠ k := fun k hkmem e => h (e ▸ hkmem)
  rw [callTool_recommend _ need rfl]
  unfold getRentalRecommendationsOn recommendForOn
  rw [if_neg (hk "beginner" (by decide))]
  rw [if_neg (by rintro (e | e); exacts [hk "expert" (by decide) e, hk "advanced" (by decide) e])]
  rw [if_neg (by rintro (e | e); exacts [hk "backcountry" (by decide) e, hk "touring" (by decide) e])]
  rw [if_neg (hk "delivery" (by decide))]
  rw [if_neg (by rintro (e | e); exacts [hk "budget" (by decide) e, hk "affordable" (by decide) e])]
  rw [if_neg (by rintro (e | e); exacts [hk "premium" (by decide) e, hk "luxury" (by decide) e])]
  rw [if_neg (by rintro (e | e); exacts [hk "family" (by decide) e, hk "kids" (by decide) e])]

/-- C6: every need whose lowercase form is not a recognized keyword takes
the default branch: the full catalog in store order with the fixed
generic explanation. -/
theorem recommend_default_fallback (need : String) (h : lowerStr need ∉ recognizedNeeds) :
    callTool "get_rental_recommendations" (some { need := some need }) =
      { payload := .recommendation "Here are all available ski rental options in the Telluride area." skiRentals,
        isError := false } :=
  recommendUnrecognized need h

/-- Witness for C6 at the concrete unrecognized need "nonsense-keyword". -/
theorem recommend_default_fallback_witness :
    callTool "get_rental_recommendations" (some { need := some "nonsense-keyword" }) =
      { payload := .recommendation "Here are all available ski rental options in the Telluride area." skiRentals,
        isError := false } :=
  recommend_default_fallback "nonsense-keyword" (by decide)

/-- C7: searching with the empty query returns every record of the
catalog in a non-error response. -/
theorem search_empty_query_returns_all :
    callTool "search_rentals" (some { query := some "" }) =
      { payload := .records skiRentals, isError := false } := by decide

/-- C8: search is case-insensitive in its query: for every q, searching q
and searching the lowercase of q give identical results; in particular
"MOUNTAIN VILLAGE" and "mountain village" give identical results. -/
theorem search_case_insensitive :
    (∀ q : String, callTool "search_rentals" (some { query := some q }) =
      callTool "search_rentals" (some { query := some (lowerStr q) })) ∧
    callTool "search_rentals" (some { query := some "MOUNTAIN VILLAGE" }) =
      callTool "search_rentals" (some { query := some "mountain village" }) := by
  constructor
  · intro q
    rw [callTool_search _ q rfl, callTool_search _ (lowerStr q) rfl]
    unfold searchRentalsOn
    rw [lowerStr_idem]
  · decide

theorem runCalls_fst (cat : List SkiRental) (calls : List (String × Option ToolArgs)) :
    (runCalls cat calls).1 = cat := by
  induction calls with
  | nil => rfl
  | cons c cs ih => simpa [runCalls, applyCall] using ih

theorem runCalls_snd (cat : List SkiRental) (calls : List (String × Option ToolArgs)) :
    (runCalls cat calls).2 = calls.map (fun c => callToolOn cat c.1 c.2) := by
  induction calls with
  | nil => rfl
  | cons c cs ih => simpa [runCalls, applyCall] using ih

/-- C9: list_ski_rentals always returns the full catalog in store order
with length equal to the store size; processing any sequence of calls
leaves the store unchanged; and each call's result is exactly what the
same call yields against the initial store, so repeated invocations with
the same arguments agree. -/
theorem list_all_stable_store :
    (∀ args, callTool "list_ski_rentals" args =
      { payload := .records skiRentals, isError := false }) ∧
    (∀ args, resultRecords (callTool "list_ski_rentals" args) = skiRentals ∧
      (resultRecords (callTool "list_ski_rentals" args)).length = skiRentals.length) ∧
    (∀ calls, (runCalls skiRentals calls).1 = skiRentals) ∧
    (∀ calls, (runCalls skiRentals calls).2 = calls.map (fun c => callTool c.1 c.2)) :=
  ⟨fun _ => rfl, fun _ => ⟨rfl, rfl⟩,
   fun calls => runCalls_fst skiRentals calls,
   fun calls => runCalls_snd skiRentals calls⟩

/-- C10: the recommendation switch classifies by exact equality of the
lowercased need, not by substring or word containment: every need string
that contains a recognized keyword without its lowercase form equaling
one takes the default all-records branch; that branch's result differs
from the result of every keyword's own branch; and in particular
"beginner skier" and "expert rentals" take the default branch. -/
theorem recommend_exact_keyword_match :
    (∀ need : String,
      (∃ k ∈ recognizedNeeds, strContains (lowerStr need) k = true) →
      lowerStr need ∉ recognizedNeeds →
      callTool "get_rental_recommendations" (some { need := some need }) =
        { payload := .recommendation "Here are all available ski rental options in the Telluride area." skiRentals,
          isError := false }) ∧
    (∀ k ∈ recognizedNeeds,
      callTool "get_rental_recommendations" (some { need := some k }) ≠
        { payload := .recommendation "Here are all available ski rental options in the Telluride area." skiRentals,
          isError := false }) ∧
    callTool "get_rental_recommendations" (some { need := some "beginner skier" }) =
      { payload := .recommendation "Here are all available ski rental options in the Telluride area." skiRentals,
        isError := false } ∧
    callTool "get_rental_recommendations" (some { need := some "expert rentals" }) =
      { payload := .recommendation "Here are all available ski rental options in the Telluride area." skiRentals,
        isError := false } := by
  refine ⟨fun need _ h => recommendUnrecognized need h, by decide,
    recommendUnrecognized "beginner skier" (by decide),
    recommendUnrecognized "expert rentals" (by decide)⟩

/-- Witness for C10 at the concrete need "beginner skier", which contains
the keyword "beginner" without equaling any recognized keyword. -/
theorem recommend_exact_keyword_match_witness :
    callTool "get_rental_recommendations" (some { need := some "beginner skier" }) =
      { payload := .recommendation "Here are all available ski rental options in the Telluride area." skiRentals,
        isError := false } :=
  recommend_exact_keyword_match.1 "beginner skier" ⟨"beginner", by decide, by decide⟩ (by decide)
